import Mathlib

/-!
Shallow embedding of the Linux windowing backend sources:
backend selection (`src/platform_impl/linux/mod.rs`), the Wayland
subsurface state machine (`.../wayland/window/subsurface/state.rs` and
`mod.rs`), and the reentrancy-guarded event-handler slot
(`winit-common/src/event_handler.rs`), together with theorems checking
the documented behaviour against these embeddings.

Wayland protocol objects (surfaces, pointers, regions, viewports) are
modelled by identifiers, and the protocol requests issued through them
are recorded as an explicit list of `Effect`s, so that every operation
of the source becomes a pure function from state to state plus emitted
effects.
-/

namespace Winit

/-! ## Backend selection (`src/platform_impl/linux/mod.rs`) -/

/-- The `Backend` enum from `linux/mod.rs`.  In the source each variant is
gated by a `cfg` attribute; the build configuration is modelled separately
by `BuildCfg`. -/
inductive Backend where
  | x
  | wayland
deriving DecidableEq, Repr

/-- The compile-time feature configuration (`cfg!(wayland_platform)` /
`cfg!(x11_platform)`).  The crate's `compile_error!` guarantees at least one
of the two is enabled, but no theorem below needs that fact. -/
structure BuildCfg where
  wayland_platform : Bool
  x11_platform : Bool
deriving DecidableEq, Repr

/-- `PlatformSpecificEventLoopAttributes` from `linux/mod.rs`. -/
structure EventLoopAttributes where
  forced_backend : Option Backend
  any_thread : Bool
deriving DecidableEq, Repr

/-- The environment variables consulted by `EventLoop::new`; `none` models an
unset (or non-unicode) variable, mirroring `env::var(..).ok()`. -/
structure EnvVars where
  wayland_display : Option String
  wayland_socket : Option String
  display : Option String
deriving DecidableEq, Repr

/-- `WAYLAND_DISPLAY`/`WAYLAND_SOCKET` detection from `EventLoop::new`:
`env::var("WAYLAND_DISPLAY").ok().filter(|v| !v.is_empty())
  .or_else(|| env::var("WAYLAND_SOCKET").ok())
  .filter(|v| !v.is_empty()).is_some()`. -/
def waylandEnvPresent (env : EnvVars) : Bool :=
  (Option.filter (fun v => !v.isEmpty)
    ((Option.filter (fun v => !v.isEmpty) env.wayland_display).orElse
      (fun _ => env.wayland_socket))).isSome

/-- `DISPLAY` detection from `EventLoop::new`:
`env::var("DISPLAY").map(|v| !v.is_empty()).unwrap_or(false)`. -/
def displayEnvPresent (env : EnvVars) : Bool :=
  (Option.map (fun v => !v.isEmpty) env.display).getD false

/-- The panic message of the main-thread check in `EventLoop::new`. -/
def mainThreadPanicMsg : String :=
  "Initializing the event loop outside of the main thread is a significant cross-platform compatibility hazard. If you absolutely need to create an EventLoop on a different thread, you can use the `EventLoopBuilderExtX11::with_any_thread` or `EventLoopBuilderExtWayland::with_any_thread` functions."

/-- Error message chosen when a Wayland variable was seen but the Wayland
backend is compiled out. -/
def msgEnableWaylandFeature : String :=
  "DISPLAY is not set; note: enable the `winit/wayland` feature to support Wayland"

/-- Error message chosen when `DISPLAY` was seen but the X11 backend is
compiled out. -/
def msgEnableX11Feature : String :=
  "neither WAYLAND_DISPLAY nor WAYLAND_SOCKET is set; note: enable the `winit/x11` feature to support X11"

/-- Error message when no display variable is present at all. -/
def msgNeitherSet : String :=
  "neither WAYLAND_DISPLAY nor WAYLAND_SOCKET nor DISPLAY is set."

/-- Outcome of `EventLoop::new` up to backend selection: the construction of
the chosen backend's event loop (which performs real I/O) is abstracted into
the `selected` constructor. -/
inductive NewOutcome where
  | panic (msg : String)
  | selected (backend : Backend)
  | notSupported (msg : String)
deriving DecidableEq, Repr

/-- `EventLoop::new` from `linux/mod.rs`: the main-thread precondition
(`panic!` when off the main thread without the `any_thread` opt-in), then
the backend-selection `match`.  The source's `cfg`-gated match arms become
guards on `BuildCfg`; `main_thread` models `is_main_thread()`. -/
def eventLoopNew (cfg : BuildCfg) (attributes : EventLoopAttributes)
    (main_thread : Bool) (env : EnvVars) : NewOutcome :=
  if !attributes.any_thread && !main_thread then
    .panic mainThreadPanicMsg
  else
    match attributes.forced_backend with
    | some backend => .selected backend
    | none =>
      let wl := waylandEnvPresent env
      let dpy := displayEnvPresent env
      if cfg.wayland_platform && wl then .selected .wayland
      else if cfg.x11_platform && dpy then .selected .x
      else
        .notSupported
          (if wl && !cfg.wayland_platform then msgEnableWaylandFeature
           else if dpy && !cfg.x11_platform then msgEnableX11Feature
           else msgNeitherSet)

/-- Character-list version of `String.startsWith` used by `strContainsSub`. -/
def startsWithChars : List Char → List Char → Bool
  | [], _ => true
  | _ :: _, [] => false
  | a :: as, b :: bs => a = b && startsWithChars as bs

/-- Whether `pat` occurs as a contiguous run inside `s`. -/
def hasSubChars (pat : List Char) : List Char → Bool
  | [] => startsWithChars pat []
  | c :: rest => startsWithChars pat (c :: rest) || hasSubChars pat rest

/-- Whether string `pat` occurs as a substring of `hay`; used to state that an
error message does (or does not) name a given environment variable or build
feature. -/
def strContainsSub (hay pat : String) : Bool :=
  hasSubChars pat.toList hay.toList

/-! ## Geometry (`dpi` crate values used by the subsurface state) -/

/-- `LogicalSize<u32>`. -/
structure LogicalSizeU where
  width : Nat
  height : Nat
deriving DecidableEq, Repr

/-- `PhysicalSize<u32>`. -/
structure PhysicalSizeU where
  width : Nat
  height : Nat
deriving DecidableEq, Repr

/-- `MIN_WINDOW_SIZE` from `subsurface/state.rs` line 35:
`LogicalSize::new(2, 1)`. -/
def MIN_WINDOW_SIZE : LogicalSizeU := ⟨2, 1⟩

/-- The `dpi::Size` enum restricted to what the claims exercise: logical
sizes carry `f64` coordinates (modelled as rationals), physical sizes carry
`u32` coordinates. -/
inductive Size where
  | logical (w h : ℚ)
  | physical (w h : Nat)
deriving DecidableEq, Repr

/-- `f64::round` as used by `dpi::Pixel::from_f64`: round to the nearest
integer, ties away from zero.  For `q = n/d ≥ 0` this is
`⌊(2n + d) / (2d)⌋`, computed with flooring integer division. -/
def roundHalfAwayFromZero (q : ℚ) : ℤ :=
  if 0 ≤ q then Int.fdiv (2 * q.num + q.den) (2 * q.den)
  else - Int.fdiv (2 * (-q).num + (-q).den) (2 * (-q).den)

/-- The saturating `as u32` cast applied by `dpi` after rounding: negative
values clamp to `0`, values beyond `u32::MAX` clamp to `u32::MAX`. -/
def castU32 (z : ℤ) : Nat :=
  min z.toNat (2 ^ 32 - 1)

/-- `dpi::Size::to_logical::<u32>(scale)`: a logical size is cast directly
(`Pixel::from_f64` rounds half away from zero), a physical size is divided by
the scale factor first. -/
def Size.to_logical_u32 (s : Size) (scale : ℚ) : LogicalSizeU :=
  match s with
  | .logical w h =>
    ⟨castU32 (roundHalfAwayFromZero w), castU32 (roundHalfAwayFromZero h)⟩
  | .physical w h =>
    ⟨castU32 (roundHalfAwayFromZero ((w : ℚ) / scale)),
     castU32 (roundHalfAwayFromZero ((h : ℚ) / scale))⟩

/-- Modelled from the spec: `logical_to_physical_rounded` lives in
`platform_impl/wayland/mod.rs`, which is not among the provided sources; the
spec (§4.3) requires device-pixel conversion "rounding by the current scale
factor with round-half-away-from-zero semantics". -/
def logical_to_physical_rounded (size : LogicalSizeU) (scale : ℚ) : PhysicalSizeU :=
  ⟨castU32 (roundHalfAwayFromZero ((size.width : ℚ) * scale)),
   castU32 (roundHalfAwayFromZero ((size.height : ℚ) * scale))⟩

/-! ## Subsurface state (`wayland/window/subsurface/state.rs`) -/

/-- `CursorIcon`: the named-icon enumeration, abstracted to an identifier;
`⟨0⟩` stands for `CursorIcon::Default`. -/
structure CursorIcon where
  id : Nat
deriving DecidableEq, Repr

/-- A custom cursor buffer (`types::cursor::CustomCursor`), abstracted to the
identity of the allocated buffer. -/
structure CustomCursor where
  id : Nat
deriving DecidableEq, Repr

/-- `SelectedCursor` from `types/cursor.rs`; its `Default` is
`Named(CursorIcon::Default)`. -/
inductive SelectedCursor where
  | named (icon : CursorIcon)
  | custom (c : CustomCursor)
deriving DecidableEq, Repr

/-- `CursorGrabMode` from the public window API. -/
inductive CursorGrabMode where
  | none
  | confined
  | locked
deriving DecidableEq, Repr

/-- `GrabState` from `wayland/window/state.rs` (referenced by the subsurface
state): the user-visible mode and the internally applied mode. -/
structure GrabState where
  user_grab_mode : CursorGrabMode
  current_grab_mode : CursorGrabMode
deriving DecidableEq, Repr

/-- `FrameCallbackState` from `wayland/window/state.rs`; the three variants
are all used in `subsurface/state.rs`. -/
inductive FrameCallbackState where
  | none
  | requested
  | received
deriving DecidableEq, Repr

/-- One entry of `SubsurfaceState::pointers` (a `Weak<ThemedPointer<..>>`):
`live` models whether `Weak::upgrade` succeeds, `latest_enter_serial` the
pointer's most recent enter serial. -/
structure Pointer where
  id : Nat
  live : Bool
  latest_enter_serial : Nat
deriving DecidableEq, Repr

/-- A Wayland protocol request issued by the subsurface state machine or its
owning handle.  The several per-pointer requests of
`apply_custom_cursor` (buffer scale, attach, damage, commit, `set_cursor`)
are abstracted into the single `applyCustomCursor` event, since the claims
only concern which cursor is applied to which pointer. -/
inductive Effect where
  | frame
  | setOpaqueRegion (fullyOpaque : Bool)
  | viewportSetDestination (w h : Nat)
  | setCursorIcon (pointer : Nat) (icon : CursorIcon)
  | applyCustomCursor (pointer : Nat) (c : Nat)
  | hideCursor (pointer : Nat) (serial : Nat)
  | setLockedCursorPosition (pointer : Nat) (x y : ℚ)
  | ping
deriving DecidableEq, Repr

/-- The claim-relevant fields of `SubsurfaceState`.  Protocol handles
(`connection`, `shm`, `queue_handle`, `surface`, `subsurface`) and fields no
claim touches (`last_configure`, `position`, `fractional_scale`,
`custom_cursor_pool`) are omitted; `pointer_constraints` and `viewport`
record only whether the respective `Option` is `Some`. -/
structure SubsurfaceState where
  pointers : List Pointer
  selected_cursor : SelectedCursor
  cursor_visible : Bool
  pointer_constraints : Bool
  transparent : Bool
  cursor_grab_mode : GrabState
  size : LogicalSizeU
  scale_factor : ℚ
  frame_callback_state : FrameCallbackState
  viewport : Bool
deriving DecidableEq, Repr

namespace SubsurfaceState

/-- `apply_on_pointer`: iterate over the pointers whose weak reference still
upgrades, emitting one effect per live pointer. -/
def apply_on_pointer (s : SubsurfaceState) (callback : Pointer → Effect) : List Effect :=
  (s.pointers.filter (fun p => p.live)).map callback

/-- `frame_callback_state` getter. -/
def frame_callback_state_get (s : SubsurfaceState) : FrameCallbackState :=
  s.frame_callback_state

/-- `frame_callback_received`. -/
def frame_callback_received (s : SubsurfaceState) : SubsurfaceState :=
  { s with frame_callback_state := .received }

/-- `frame_callback_reset`. -/
def frame_callback_reset (s : SubsurfaceState) : SubsurfaceState :=
  { s with frame_callback_state := .none }

/-- `request_frame_callback`: issue `surface.frame(..)` only when no frame
callback is in flight. -/
def request_frame_callback (s : SubsurfaceState) : SubsurfaceState × List Effect :=
  match s.frame_callback_state with
  | .none | .received =>
    ({ s with frame_callback_state := .requested }, [Effect.frame])
  | .requested => (s, [])

/-- `reload_transparency_hint`: transparent windows clear the opaque region,
opaque ones install a maximal opaque region (allocation failure of the region
is only logged in the source and is not modelled). -/
def reload_transparency_hint (s : SubsurfaceState) : List Effect :=
  if s.transparent then [Effect.setOpaqueRegion false]
  else [Effect.setOpaqueRegion true]

/-- `resize`: store the new logical size (the source applies no clamping),
reissue the transparency hint, and update the viewport destination when a
viewport exists. -/
def resize (s : SubsurfaceState) (surface_size : LogicalSizeU) :
    SubsurfaceState × List Effect :=
  let s := { s with size := surface_size }
  (s, reload_transparency_hint s ++
    (if s.viewport then [Effect.viewportSetDestination s.size.width s.size.height]
     else []))

/-- `surface_size` getter. -/
def surface_size (s : SubsurfaceState) : LogicalSizeU :=
  s.size

/-- `request_surface_size`: convert the requested size to logical pixels at
the current scale factor, `resize`, and return the resulting size in device
pixels. -/
def request_surface_size (s : SubsurfaceState) (surface_size : Size) :
    SubsurfaceState × PhysicalSizeU × List Effect :=
  let r := resize s (surface_size.to_logical_u32 s.scale_factor)
  (r.1, logical_to_physical_rounded r.1.size r.1.scale_factor, r.2)

/-- `set_cursor`: record the named selection; apply it to every live pointer
only while the cursor is visible. -/
def set_cursor (s : SubsurfaceState) (cursor_icon : CursorIcon) :
    SubsurfaceState × List Effect :=
  let s := { s with selected_cursor := .named cursor_icon }
  if !s.cursor_visible then (s, [])
  else (s, s.apply_on_pointer (fun p => Effect.setCursorIcon p.id cursor_icon))

/-- `apply_custom_cursor`: push the custom cursor buffer to every live
pointer. -/
def apply_custom_cursor (s : SubsurfaceState) (cursor : CustomCursor) : List Effect :=
  s.apply_on_pointer (fun p => Effect.applyCustomCursor p.id cursor.id)

/-- `set_custom_cursor`: allocate the cursor buffer (abstracted into the
`CustomCursor` value), apply it when visible, and record the selection. -/
def set_custom_cursor (s : SubsurfaceState) (cursor : CustomCursor) :
    SubsurfaceState × List Effect :=
  let effects := if s.cursor_visible then s.apply_custom_cursor cursor else []
  ({ s with selected_cursor := .custom cursor }, effects)

/-- `set_cursor_visible`: when becoming visible, reapply whichever cursor is
selected; when becoming hidden, clear each live pointer's cursor surface with
its latest enter serial. -/
def set_cursor_visible (s : SubsurfaceState) (cursor_visible : Bool) :
    SubsurfaceState × List Effect :=
  let s := { s with cursor_visible := cursor_visible }
  if s.cursor_visible then
    match s.selected_cursor with
    | .named icon => set_cursor s icon
    | .custom cursor => (s, s.apply_custom_cursor cursor)
  else
    (s, (s.pointers.filter (fun p => p.live)).map
      (fun p => Effect.hideCursor p.id p.latest_enter_serial))

/-- The error type of `RequestError` restricted to the variants the claims
use. -/
inductive RequestError where
  | notSupported (msg : String)
  | os (msg : String)
deriving DecidableEq, Repr

/-- `set_cursor_position`: fails with `NotSupported` when the
pointer-constraints global is absent or the currently applied grab mode is
not `Locked`; otherwise forwards the position to every live pointer.  The
source takes `&self`, so no state is mutated on any path; the function
therefore returns only the emitted effects. -/
def set_cursor_position (s : SubsurfaceState) (position : ℚ × ℚ) :
    Except RequestError (List Effect) :=
  if !s.pointer_constraints then
    .error (.notSupported "zwp_pointer_constraints is not available")
  else if s.cursor_grab_mode.current_grab_mode ≠ CursorGrabMode.locked then
    .error (.notSupported "cursor position could only be changed for locked pointer")
  else
    .ok (s.apply_on_pointer
      (fun p => Effect.setLockedCursorPosition p.id position.1 position.2))

end SubsurfaceState

/-! ## Window request flags (`wayland/window/subsurface/mod.rs`) -/

/-- `WindowRequests`: the per-surface shared atomic flags. -/
structure WindowRequests where
  closed : Bool
  redraw_requested : Bool
deriving DecidableEq, Repr

/-- The `WindowRequests` value allocated by `Subsurface::new`
(`mod.rs` lines 126-129): `closed: AtomicBool::new(false)`,
`redraw_requested: AtomicBool::new(true)`. -/
def subsurfaceInitialWindowRequests : WindowRequests :=
  { closed := false, redraw_requested := true }

/-- `Subsurface::request_redraw`: a compare-and-set of the shared flag from
`false` to `true`; only a successful exchange pings the event-loop awakener.
The ping counter stands for the number of `event_loop_awakener.ping()`
calls. -/
def request_redraw (w : WindowRequests) (pings : Nat) : WindowRequests × Nat :=
  if w.redraw_requested then (w, pings)
  else ({ w with redraw_requested := true }, pings + 1)

/-- `n` consecutive `request_redraw` calls with no intervening clear of the
flag by the event loop. -/
def iterateRequestRedraw : Nat → WindowRequests × Nat → WindowRequests × Nat
  | 0, x => x
  | n + 1, (w, p) => iterateRequestRedraw n (request_redraw w p)

/-- Modelled from the spec: the event loop's redraw delivery step is in the
Wayland event-loop sources, which are not among the provided files; per
§4.2 "delivery clears the flag only if it was still true, otherwise does
nothing", and a redraw-needed event is delivered exactly when the flag was
observed `true`. -/
def dispatchRedrawDelivery (w : WindowRequests) : WindowRequests × Bool :=
  if w.redraw_requested then ({ w with redraw_requested := false }, true)
  else (w, false)

/-! ## Frame-callback traces -/

/-- The operations of the frame-callback sub-state machine exercised by the
claims: a redraw-driven `request_frame_callback` and the compositor's
callback arrival (`frame_callback_received`). -/
inductive FCOp where
  | request
  | received
deriving DecidableEq, Repr

/-- Run a sequence of frame-callback operations, counting how many
`surface.frame(..)` requests (i.e. `Effect.frame` emissions) are issued. -/
def runFCOps (s : SubsurfaceState) : List FCOp → SubsurfaceState × Nat
  | [] => (s, 0)
  | op :: rest =>
    match op with
    | .request =>
      let r := s.request_frame_callback
      let t := runFCOps r.1 rest
      (t.1, r.2.length + t.2)
    | .received =>
      let t := runFCOps s.frame_callback_received rest
      (t.1, t.2)

/-- The number of `received` notifications in a trace. -/
def recCount (ops : List FCOp) : Nat :=
  (ops.filter (fun op => op matches FCOp.received)).length

/-! ## Event handler slot (`winit-common/src/event_handler.rs`) -/

/-- The observable states of `EventHandler`'s `RefCell<Option<Box<dyn
ApplicationHandler>>>`: `Ok(None)`, `Ok(Some(handler))` and the borrowed
`Err(_)` case.  `H` abstracts the stored application handler. -/
inductive SlotState (H : Type u) where
  | absent
  | presentIdle (handler : H)
  | presentBorrowed
deriving DecidableEq, Repr

/-- Outcome of `EventHandler::handle`. -/
inductive HandleOutcome where
  | ran
  | loggedNoOp
  | reentrancyPanic (msg : String)
deriving DecidableEq, Repr

/-- Outcome of the slot-installation check at the start of
`EventHandler::set`; the source's `unreachable!` calls become
`violationPanic`. -/
inductive SetOutcome (H : Type u) where
  | installed (slot : SlotState H)
  | violationPanic (msg : String)
deriving DecidableEq, Repr

namespace EventHandler

/-- `EventHandler::handle`: run the callback on the installed handler, log a
no-op when no handler is set, and panic on reentrant use.  The callback may
mutate the handler, which stays installed afterwards. -/
def handle (s : SlotState H) (callback : H → H) : HandleOutcome × SlotState H :=
  match s with
  | .presentIdle user_app => (.ran, .presentIdle (callback user_app))
  | .absent => (.loggedNoOp, .absent)
  | .presentBorrowed =>
    (.reentrancyPanic "tried to handle event while another event is currently being handled",
     .presentBorrowed)

/-- The installation step of `EventHandler::set` (its `try_borrow_mut`
match): installing into an occupied or borrowed slot is a reported
violation, never a silent replacement. -/
def set (s : SlotState H) (app : H) : SetOutcome H :=
  match s with
  | .absent => .installed (.presentIdle app)
  | .presentIdle _ => .violationPanic "tried to set handler while another was already set"
  | .presentBorrowed => .violationPanic "tried to set handler that is currently in use"

end EventHandler

/-! ## Sample state used by the witnesses -/

/-- A concrete subsurface state: one live pointer, default named cursor,
visible, no pointer-constraints global, grab mode `none`, a frame callback
in flight. -/
def sampleState : SubsurfaceState :=
  { pointers := [{ id := 1, live := true, latest_enter_serial := 7 }]
    selected_cursor := .named ⟨0⟩
    cursor_visible := true
    pointer_constraints := false
    transparent := false
    cursor_grab_mode := { user_grab_mode := .none, current_grab_mode := .none }
    size := ⟨200, 200⟩
    scale_factor := 1
    frame_callback_state := .requested
    viewport := false }

/-- Effect corresponding to reapplying a stored cursor selection to one
pointer. -/
def reapplyEffect (p : Pointer) : SelectedCursor → Effect
  | .named icon => Effect.setCursorIcon p.id icon
  | .custom c => Effect.applyCustomCursor p.id c.id

/-! ## Theorems -/

/-- Claim C1: the claim states that `request_surface_size` clamps the stored
logical size to the platform minimum `MIN_WINDOW_SIZE = 2×1`.  The source's
`resize` stores the requested size without any clamping (`MIN_WINDOW_SIZE`
is declared but never used), so requesting a `0×0` logical size stores the
logical size `0×0`, strictly below the minimum in both coordinates. -/
theorem request_surface_size_below_min_unclamped :
    (sampleState.request_surface_size (Size.logical 0 0)).1.size = ⟨0, 0⟩
    ∧ (sampleState.request_surface_size (Size.logical 0 0)).1.size.width
        < MIN_WINDOW_SIZE.width
    ∧ (sampleState.request_surface_size (Size.logical 0 0)).1.size.height
        < MIN_WINDOW_SIZE.height := by
  refine ⟨?_, ?_, ?_⟩ <;> decide

/-- Claim C2: backend selection in `EventLoop::new` (once past the
main-thread check) follows the documented precedence: a forced backend
always wins; otherwise a non-empty `WAYLAND_DISPLAY` or `WAYLAND_SOCKET`
(empty values treated as absent) selects Wayland; otherwise a non-empty
`DISPLAY` selects X11; when neither is present, or the only present
variable's backend is compiled out, the result is a `NotSupported` error. -/
theorem backend_selection_precedence :
    ∀ (cfg : BuildCfg) (attributes : EventLoopAttributes) (main_thread : Bool)
      (env : EnvVars),
      (attributes.any_thread || main_thread) = true →
      ((∀ b, attributes.forced_backend = some b →
          eventLoopNew cfg attributes main_thread env = .selected b)
      ∧ (attributes.forced_backend = none → waylandEnvPresent env = true →
          cfg.wayland_platform = true →
          eventLoopNew cfg attributes main_thread env = .selected .wayland)
      ∧ (attributes.forced_backend = none → waylandEnvPresent env = false →
          displayEnvPresent env = true → cfg.x11_platform = true →
          eventLoopNew cfg attributes main_thread env = .selected .x)
      ∧ (attributes.forced_backend = none → waylandEnvPresent env = false →
          displayEnvPresent env = false →
          eventLoopNew cfg attributes main_thread env = .notSupported msgNeitherSet)
      ∧ (attributes.forced_backend = none → waylandEnvPresent env = true →
          displayEnvPresent env = false → cfg.wayland_platform = false →
          eventLoopNew cfg attributes main_thread env
            = .notSupported msgEnableWaylandFeature)
      ∧ (attributes.forced_backend = none → waylandEnvPresent env = false →
          displayEnvPresent env = true → cfg.x11_platform = false →
          eventLoopNew cfg attributes main_thread env
            = .notSupported msgEnableX11Feature)
      ∧ (env.wayland_display = some "" → env.wayland_socket = some "" →
          waylandEnvPresent env = false)
      ∧ (env.display = some "" → displayEnvPresent env = false)) := by
  intro cfg attributes main_thread env hth
  have hcond : (!attributes.any_thread && !main_thread) = false := by
    cases h1 : attributes.any_thread <;> cases h2 : main_thread <;> simp_all
  refine ⟨?_, ?_, ?_, ?_, ?_, ?_, ?_, ?_⟩
  · intro b hf
    simp [eventLoopNew, hcond, hf]
  · intro hf hw hc
    simp [eventLoopNew, hcond, hf, hw, hc]
  · intro hf hw hd hc
    simp [eventLoopNew, hcond, hf, hw, hd, hc]
  · intro hf hw hd
    simp [eventLoopNew, hcond, hf, hw, hd]
  · intro hf hw hd hc
    simp [eventLoopNew, hcond, hf, hw, hd, hc]
  · intro hf hw hd hc
    simp [eventLoopNew, hcond, hf, hw, hd, hc]
  · intro h1 h2
    unfold waylandEnvPresent
    rw [h1, h2]
    decide
  · intro h1
    unfold displayEnvPresent
    rw [h1]
    decide

/-- Witness for C2: with both backends compiled in, no forced backend, a
non-empty `WAYLAND_DISPLAY` and a non-empty `DISPLAY`, Wayland is
selected. -/
theorem backend_selection_precedence_witness :
    eventLoopNew { wayland_platform := true, x11_platform := true }
        { forced_backend := none, any_thread := true } true
        { wayland_display := some "wayland-0", wayland_socket := none,
          display := some ":0" }
      = .selected .wayland := by
  have h := backend_selection_precedence
      { wayland_platform := true, x11_platform := true }
      { forced_backend := none, any_thread := true } true
      { wayland_display := some "wayland-0", wayland_socket := none,
        display := some ":0" }
      (by decide)
  exact h.2.1 rfl (by decide) rfl

/-- Claim C4: creating the event loop off the main thread without the
`any_thread` opt-in panics with the main-thread hazard message: the result
is the `panic` outcome, never a returned error and never a selected
backend. -/
theorem event_loop_new_off_main_thread_panics :
    ∀ (cfg : BuildCfg) (attributes : EventLoopAttributes) (env : EnvVars),
      attributes.any_thread = false →
      eventLoopNew cfg attributes false env = .panic mainThreadPanicMsg := by
  intro cfg attributes env h
  simp [eventLoopNew, h]

/-- Witness for C4 at a concrete configuration. -/
theorem event_loop_new_off_main_thread_panics_witness :
    eventLoopNew { wayland_platform := true, x11_platform := true }
        { forced_backend := none, any_thread := false } false
        { wayland_display := none, wayland_socket := none, display := none }
      = .panic mainThreadPanicMsg :=
  event_loop_new_off_main_thread_panics _ _ _ rfl

/-- Claim C9 counterexample: when only `WAYLAND_DISPLAY` is set and the
Wayland backend is compiled out, the `NotSupported` message is the fixed
string "DISPLAY is not set; note: enable the `winit/wayland` feature to
support Wayland", which does not contain the name of either variable that
was actually seen (`WAYLAND_DISPLAY` / `WAYLAND_SOCKET`) — refuting the
claim that the message names which variable was seen. -/
theorem notsupported_msg_omits_seen_variable :
    eventLoopNew { wayland_platform := false, x11_platform := true }
        { forced_backend := none, any_thread := false } true
        { wayland_display := some "wayland-0", wayland_socket := none,
          display := none }
      = .notSupported msgEnableWaylandFeature
    ∧ strContainsSub msgEnableWaylandFeature "WAYLAND_DISPLAY" = false
    ∧ strContainsSub msgEnableWaylandFeature "WAYLAND_SOCKET" = false := by
  refine ⟨by decide, by decide, by decide⟩

/-- Claim C9 (amended): when the only display variable present belongs to a
compiled-out backend, `EventLoop::new` fails with a `NotSupported` error
whose message names the build feature that would be needed for the seen
variable's backend and reports the other backend's variable(s) as not set;
it does not name the seen variable itself. -/
theorem notsupported_msg_names_feature_and_missing_vars :
    ∀ (cfg : BuildCfg) (attributes : EventLoopAttributes) (main_thread : Bool)
      (env : EnvVars),
      (attributes.any_thread || main_thread) = true →
      attributes.forced_backend = none →
      ((waylandEnvPresent env = true → displayEnvPresent env = false →
          cfg.wayland_platform = false →
          eventLoopNew cfg attributes main_thread env
            = .notSupported msgEnableWaylandFeature
          ∧ strContainsSub msgEnableWaylandFeature "winit/wayland" = true
          ∧ strContainsSub msgEnableWaylandFeature "DISPLAY is not set" = true)
      ∧ (waylandEnvPresent env = false → displayEnvPresent env = true →
          cfg.x11_platform = false →
          eventLoopNew cfg attributes main_thread env
            = .notSupported msgEnableX11Feature
          ∧ strContainsSub msgEnableX11Feature "winit/x11" = true
          ∧ strContainsSub msgEnableX11Feature "WAYLAND_DISPLAY" = true
          ∧ strContainsSub msgEnableX11Feature "WAYLAND_SOCKET" = true)) := by
  intro cfg attributes main_thread env hth hf
  have hcond : (!attributes.any_thread && !main_thread) = false := by
    cases h1 : attributes.any_thread <;> cases h2 : main_thread <;> simp_all
  constructor
  · intro hw hd hc
    refine ⟨by simp [eventLoopNew, hcond, hf, hw, hd, hc], by decide, by decide⟩
  · intro hw hd hc
    refine ⟨by simp [eventLoopNew, hcond, hf, hw, hd, hc], by decide, by decide, by decide⟩

/-- Witness for the amended C9 at a concrete Wayland-seen, x11-only build. -/
theorem notsupported_msg_names_feature_witness :
    eventLoopNew { wayland_platform := false, x11_platform := true }
        { forced_backend := none, any_thread := true } false
        { wayland_display := none, wayland_socket := some "4",
          display := none }
      = .notSupported msgEnableWaylandFeature
    ∧ strContainsSub msgEnableWaylandFeature "winit/wayland" = true := by
  have h := notsupported_msg_names_feature_and_missing_vars
      { wayland_platform := false, x11_platform := true }
      { forced_backend := none, any_thread := true } false
      { wayland_display := none, wayland_socket := some "4", display := none }
      (by decide) rfl
  have h2 := h.1 (by decide) rfl rfl
  exact ⟨h2.1, h2.2.1⟩

/-- Auxiliary invariant for C3: along any trace of frame-callback requests
and received notifications, the number of issued `surface.frame` requests is
bounded by the number of received notifications, plus one unless a request
is already in flight at the start. -/
theorem runFCOps_le_aux (ops : List FCOp) :
    ∀ s : SubsurfaceState,
      (runFCOps s ops).2
        ≤ recCount ops
          + (if s.frame_callback_state = FrameCallbackState.requested then 0 else 1) := by
  induction ops with
  | nil =>
    intro s
    by_cases h : s.frame_callback_state = FrameCallbackState.requested <;>
      simp [runFCOps, recCount, h]
  | cons op rest ih =>
    intro s
    cases op with
    | request =>
      by_cases h : s.frame_callback_state = FrameCallbackState.requested
      · have hreq : s.request_frame_callback = (s, []) := by
          simp [SubsurfaceState.request_frame_callback, h]
        have := ih s
        simp [runFCOps, hreq, recCount, h] at this ⊢
        omega
      · have hreq : s.request_frame_callback
            = ({ s with frame_callback_state := .requested }, [Effect.frame]) := by
          cases hs : s.frame_callback_state
          · simp [SubsurfaceState.request_frame_callback, hs]
          · exact absurd hs h
          · simp [SubsurfaceState.request_frame_callback, hs]
        have := ih { s with frame_callback_state := FrameCallbackState.requested }
        simp [runFCOps, hreq, recCount, h] at this ⊢
        omega
    | received =>
      have := ih s.frame_callback_received
      simp [runFCOps, recCount, SubsurfaceState.frame_callback_received] at this ⊢
      omega

/-- Claim C3: `request_frame_callback` is a no-op (state unchanged, no
protocol request) while a frame callback is already in flight, and from the
`none` or `received` states it moves to `requested` while issuing exactly
one `surface.frame` request; consequently, along any trace of requests and
received notifications the number of issued frame requests never exceeds
the number of received callbacks plus one — at most one round-trip is in
flight. -/
theorem frame_callback_single_flight :
    (∀ s : SubsurfaceState,
        s.frame_callback_state = FrameCallbackState.requested →
        s.request_frame_callback = (s, []))
    ∧ (∀ s : SubsurfaceState,
        s.frame_callback_state = FrameCallbackState.none
          ∨ s.frame_callback_state = FrameCallbackState.received →
        s.request_frame_callback
          = ({ s with frame_callback_state := .requested }, [Effect.frame]))
    ∧ (∀ (s : SubsurfaceState) (ops : List FCOp),
        (runFCOps s ops).2 ≤ recCount ops + 1) := by
  refine ⟨?_, ?_, ?_⟩
  · intro s h
    simp [SubsurfaceState.request_frame_callback, h]
  · intro s h
    rcases h with h | h <;> simp [SubsurfaceState.request_frame_callback, h]
  · intro s ops
    have h := runFCOps_le_aux ops s
    by_cases hs : s.frame_callback_state = FrameCallbackState.requested <;>
      simp [hs] at h <;> omega

/-- Witness for C3: on the sample state, whose frame callback is already
requested, a further request changes nothing. -/
theorem frame_callback_single_flight_witness :
    sampleState.request_frame_callback = (sampleState, []) :=
  frame_callback_single_flight.1 sampleState rfl

/-- Auxiliary for C5: once the shared flag is `true`, further
`request_redraw` calls change neither the flag nor the ping count. -/
theorem iterateRequestRedraw_true (n : Nat) :
    ∀ (w : WindowRequests) (pings : Nat), w.redraw_requested = true →
      iterateRequestRedraw n (w, pings) = (w, pings) := by
  induction n with
  | zero => intro w pings _; rfl
  | succ m ih =>
    intro w pings h
    show iterateRequestRedraw m (request_redraw w pings) = (w, pings)
    rw [show request_redraw w pings = (w, pings) by simp [request_redraw, h]]
    exact ih w pings h

/-- Claim C5: redraw requests coalesce through the compare-and-set: for any
`n ≥ 1`, `n` `request_redraw` calls starting from a cleared flag leave the
flag `true` and ping the event loop exactly once, and any number of calls
starting from an already-set flag changes nothing. -/
theorem request_redraw_coalesced :
    (∀ (w : WindowRequests) (pings n : Nat), 1 ≤ n →
        w.redraw_requested = false →
        iterateRequestRedraw n (w, pings)
          = ({ w with redraw_requested := true }, pings + 1))
    ∧ (∀ (w : WindowRequests) (pings n : Nat), w.redraw_requested = true →
        iterateRequestRedraw n (w, pings) = (w, pings)) := by
  constructor
  · intro w pings n hn hw
    cases n with
    | zero => omega
    | succ m =>
      show iterateRequestRedraw m (request_redraw w pings) = _
      rw [show request_redraw w pings
          = ({ w with redraw_requested := true }, pings + 1) by
        simp [request_redraw, hw]]
      exact iterateRequestRedraw_true m _ _ rfl
  · intro w pings n h
    exact iterateRequestRedraw_true n w pings h

/-- Witness for C5: three consecutive redraw requests from a cleared flag
set the flag and ping exactly once. -/
theorem request_redraw_coalesced_witness :
    iterateRequestRedraw 3 ({ closed := false, redraw_requested := false }, 0)
      = ({ closed := false, redraw_requested := true }, 1) :=
  request_redraw_coalesced.1 { closed := false, redraw_requested := false } 0 3
    (by decide) rfl

/-- Claim C6: `EventHandler::handle` on an absent slot is a logged no-op for
every callback — it never panics, never invokes the callback, and leaves the
slot absent; `EventHandler::set` on an occupied slot (idle or borrowed)
always reports a violation instead of silently replacing or ignoring the
handler. -/
theorem event_handler_slot_behavior :
    (∀ (H : Type) (callback : H → H),
        EventHandler.handle (SlotState.absent : SlotState H) callback
          = (HandleOutcome.loggedNoOp, SlotState.absent))
    ∧ (∀ (H : Type) (h : H) (app : H),
        EventHandler.set (SlotState.presentIdle h) app
          = SetOutcome.violationPanic
              "tried to set handler while another was already set")
    ∧ (∀ (H : Type) (app : H),
        EventHandler.set (SlotState.presentBorrowed : SlotState H) app
          = SetOutcome.violationPanic
              "tried to set handler that is currently in use") :=
  ⟨fun _ _ => rfl, fun _ _ _ => rfl, fun _ _ => rfl⟩

/-- Claim C7: `set_cursor_position` fails with a `NotSupported` error
whenever the applied grab mode is not `Locked` (in particular whenever the
pointer-constraints global is absent), emitting no protocol requests on the
error path (and, the receiver being `&self`, mutating no state); a
successful call implies the grab mode is `Locked`, the constraints global is
present, and the position is forwarded to every live pointer. -/
theorem set_cursor_position_requires_locked :
    ∀ (s : SubsurfaceState) (position : ℚ × ℚ),
      (s.cursor_grab_mode.current_grab_mode ≠ CursorGrabMode.locked →
        ∃ m, s.set_cursor_position position
          = .error (SubsurfaceState.RequestError.notSupported m))
      ∧ (s.pointer_constraints = false →
        s.set_cursor_position position
          = .error (SubsurfaceState.RequestError.notSupported
              "zwp_pointer_constraints is not available"))
      ∧ (∀ effects, s.set_cursor_position position = .ok effects →
        s.cursor_grab_mode.current_grab_mode = CursorGrabMode.locked
        ∧ s.pointer_constraints = true
        ∧ effects = s.apply_on_pointer
            (fun p => Effect.setLockedCursorPosition p.id position.1 position.2)) := by
  intro s position
  refine ⟨?_, ?_, ?_⟩
  · intro hmode
    by_cases hc : s.pointer_constraints = true
    · exact ⟨"cursor position could only be changed for locked pointer",
        by simp [SubsurfaceState.set_cursor_position, hc, hmode]⟩
    · have hc' : s.pointer_constraints = false := by simp_all
      exact ⟨"zwp_pointer_constraints is not available",
        by simp [SubsurfaceState.set_cursor_position, hc']⟩
  · intro hc
    simp [SubsurfaceState.set_cursor_position, hc]
  · intro effects heq
    by_cases hc : s.pointer_constraints = true
    · by_cases hmode : s.cursor_grab_mode.current_grab_mode = CursorGrabMode.locked
      · simp [SubsurfaceState.set_cursor_position, hc, hmode] at heq
        exact ⟨hmode, hc, heq.symm⟩
      · simp [SubsurfaceState.set_cursor_position, hc, hmode] at heq
    · have hc' : s.pointer_constraints = false := by simp_all
      simp [SubsurfaceState.set_cursor_position, hc'] at heq

/-- Witness for C7: on the sample state (no pointer-constraints global, grab
mode `none`), setting the cursor position fails with the constraints
`NotSupported` error. -/
theorem set_cursor_position_requires_locked_witness :
    sampleState.set_cursor_position (1, 2)
      = .error (SubsurfaceState.RequestError.notSupported
          "zwp_pointer_constraints is not available") :=
  (set_cursor_position_requires_locked sampleState (1, 2)).2.1 rfl

/-- Claim C8: hiding the cursor and then re-showing it without changing the
selection reapplies exactly the previously selected cursor (named or
custom) to every live pointer and leaves the selection unchanged; and a
selection made while hidden is stored without touching any pointer and is
applied to every live pointer once visibility is restored. -/
theorem cursor_visibility_roundtrip :
    ∀ s : SubsurfaceState,
      ((s.set_cursor_visible false).1.set_cursor_visible true).1.selected_cursor
          = s.selected_cursor
      ∧ ((s.set_cursor_visible false).1.set_cursor_visible true).2
          = (s.pointers.filter (fun p => p.live)).map
              (fun p => reapplyEffect p s.selected_cursor)
      ∧ (∀ icon : CursorIcon, s.cursor_visible = false →
          (s.set_cursor icon).2 = []
          ∧ (s.set_cursor icon).1.selected_cursor = .named icon
          ∧ ((s.set_cursor icon).1.set_cursor_visible true).2
            = (s.pointers.filter (fun p => p.live)).map
                (fun p => Effect.setCursorIcon p.id icon))
      ∧ (∀ c : CustomCursor, s.cursor_visible = false →
          (s.set_custom_cursor c).2 = []
          ∧ (s.set_custom_cursor c).1.selected_cursor = .custom c
          ∧ ((s.set_custom_cursor c).1.set_cursor_visible true).2
            = (s.pointers.filter (fun p => p.live)).map
                (fun p => Effect.applyCustomCursor p.id c.id)) := by
  intro s
  refine ⟨?_, ?_, ?_, ?_⟩
  · cases h : s.selected_cursor <;>
      simp [SubsurfaceState.set_cursor_visible, SubsurfaceState.set_cursor,
        SubsurfaceState.apply_custom_cursor, SubsurfaceState.apply_on_pointer, h]
  · cases h : s.selected_cursor <;>
      simp [SubsurfaceState.set_cursor_visible, SubsurfaceState.set_cursor,
        SubsurfaceState.apply_custom_cursor, SubsurfaceState.apply_on_pointer, h,
        reapplyEffect]
  · intro icon hv
    refine ⟨?_, ?_, ?_⟩ <;>
      simp [SubsurfaceState.set_cursor, SubsurfaceState.set_cursor_visible,
        SubsurfaceState.apply_on_pointer, hv]
  · intro c hv
    refine ⟨?_, ?_, ?_⟩ <;>
      simp [SubsurfaceState.set_custom_cursor, SubsurfaceState.set_cursor_visible,
        SubsurfaceState.apply_custom_cursor, SubsurfaceState.apply_on_pointer, hv]

/-- Witness for C8: on the sample state made hidden, selecting icon `3` is
stored silently and reapplied to the one live pointer on re-show. -/
theorem cursor_visibility_roundtrip_witness :
    (({ sampleState with cursor_visible := false }).set_cursor ⟨3⟩).2 = []
    ∧ (({ sampleState with cursor_visible := false }).set_cursor ⟨3⟩).1.selected_cursor
        = .named ⟨3⟩
    ∧ ((({ sampleState with cursor_visible := false }).set_cursor ⟨3⟩).1.set_cursor_visible
          true).2
        = [Effect.setCursorIcon 1 ⟨3⟩] :=
  (cursor_visibility_roundtrip { sampleState with cursor_visible := false }).2.2.1
    ⟨3⟩ rfl

/-- Claim C10: `Subsurface::new` initializes the shared window-request flags
with `closed = false` and `redraw_requested = true`, so the first dispatch
round (modelled from the spec's read-and-clear delivery) observes a pending
redraw and delivers a redraw-needed event without any `request_redraw`
call. -/
theorem initial_window_requests_redraw_pending :
    subsurfaceInitialWindowRequests.closed = false
    ∧ subsurfaceInitialWindowRequests.redraw_requested = true
    ∧ (dispatchRedrawDelivery subsurfaceInitialWindowRequests).2 = true :=
  ⟨rfl, rfl, rfl⟩

end Winit
